import Mathlib

/-!
Shallow embedding of the wallet ledger and payment-reconciliation engine of
the Dayly fiat-wallet repository (Firebase Cloud Functions in
`src/unnamed/part_002`), together with theorems settling the frozen claims.

Modelling conventions:
* JavaScript `number` amounts are modelled as exact rationals (`ℚ`); the
  source manipulates decimal money amounts with `+`/`-`/comparison only.
* Firestore documents become Lean structures; a collection is an
  association list keyed by document id.  `set` (overwrite) is `setAssoc`,
  `update` (merge into an existing document) is `updateAssoc`.
* A `db.runTransaction` body is a pure function on the whole store: all of
  its writes appear in the single returned state, so the writes commit
  together or (on a thrown error) not at all, as in Firestore.
* `HttpsError` throws become `Except` errors; an error leaves the store
  unchanged, matching Firestore transaction rollback.
* The MD5 digest is an abstract parameter `h : String → String`; no claim
  depends on the internals of the hash, only on recomputation over equal
  input strings.
* Timestamps (`createdAt`, `updatedAt`, `completedAt`) and log-only debug
  output are outside the model.
-/

namespace Dayly

/-- Association-list lookup with decidable key equality (first match wins;
all stores in the model have distinct keys, as Firestore document ids do). -/
def lookupA {α β : Type} [DecidableEq α] : List (α × β) → α → Option β
  | [], _ => none
  | (k2, v2) :: rest, k => if k2 = k then some v2 else lookupA rest k

/-- Firestore `set`: overwrite the document at key `k` if present, otherwise
append a new document. -/
def setAssoc {α β : Type} [DecidableEq α] : List (α × β) → α → β → List (α × β)
  | [], k, v => [(k, v)]
  | (k2, v2) :: rest, k, v =>
      if k2 = k then (k, v) :: rest else (k2, v2) :: setAssoc rest k v

/-- Firestore `update`: modify the document at key `k` when it exists. -/
def updateAssoc {α β : Type} [DecidableEq α] (f : β → β) : List (α × β) → α → List (α × β)
  | [], _ => []
  | (k2, v2) :: rest, k =>
      if k2 = k then (k2, f v2) :: rest else (k2, v2) :: updateAssoc f rest k

/-! ## String utilities

Character-list implementations of the JavaScript string operations the wallet
code uses (`trim`, `encodeURIComponent`, `toUpperCase`, `Number(...)`
parsing, splitting on `&`).  They are written over `List Char` so that every
definition reduces inside the kernel (`decide`/`rfl` on concrete inputs).
-/

/-- Whitespace stripped by JavaScript `String.prototype.trim` (the ASCII
whitespace characters plus NBSP; further Unicode space code points never
occur in the gateway's field values). -/
def isJsWs (c : Char) : Bool := c.toNat ∈ [9, 10, 11, 12, 13, 32, 160]

/-- JavaScript `s.trim()`. -/
def jsTrim (s : String) : String :=
  String.mk (((s.data.dropWhile isJsWs).reverse.dropWhile isJsWs).reverse)

/-- Source `cleanPf`: `v == null ? '' : String(v).trim()`; `null`
and `undefined` inputs are handled by `Option` at the call sites, so the
model only needs the trim. -/
def cleanPf (s : String) : String := jsTrim s

/-- JavaScript `s.toUpperCase()` on the ASCII range (currency codes). -/
def jsToUpper (s : String) : String :=
  String.mk (s.data.map (fun c =>
    if 97 ≤ c.toNat ∧ c.toNat ≤ 122 then Char.ofNat (c.toNat - 32) else c))

/-- Source `getBaseCurrency`:
`(process.env.APP_BASE_CURRENCY || 'ZAR').toUpperCase()`, taking the raw
environment value as argument (empty string = unset). -/
def getBaseCurrency (envCcy : String) : String :=
  jsToUpper (if envCcy = "" then "ZAR" else envCcy)

/-- Uppercase hexadecimal digit, as `encodeURIComponent` produces. -/
def hexDigit (n : Nat) : Char :=
  if n < 10 then Char.ofNat (48 + n) else Char.ofNat (55 + n)

/-- UTF-8 bytes of a Unicode scalar value (what `encodeURIComponent`
percent-encodes for non-unreserved characters). -/
def utf8Bytes (n : Nat) : List Nat :=
  if n < 128 then [n]
  else if n < 2048 then [192 + n / 64, 128 + n % 64]
  else if n < 65536 then [224 + n / 4096, 128 + (n / 64) % 64, 128 + n % 64]
  else [240 + n / 262144, 128 + (n / 4096) % 64, 128 + (n / 64) % 64, 128 + n % 64]

/-- Characters `encodeURIComponent` leaves unescaped:
`A-Z a-z 0-9 - _ . ! ~ * ' ( )`. -/
def isUriUnreserved (n : Nat) : Bool :=
  (65 ≤ n ∧ n ≤ 90) ∨ (97 ≤ n ∧ n ≤ 122) ∨ (48 ≤ n ∧ n ≤ 57) ∨
    n ∈ [45, 95, 46, 33, 126, 42, 39, 40, 41]

/-- Percent-encoding of one byte: `%XX` with uppercase hex. -/
def percentByte (b : Nat) : List Char :=
  [Char.ofNat 37, hexDigit (b / 16), hexDigit (b % 16)]

/-- JavaScript `encodeURIComponent`. -/
def encodeURIComponent (s : String) : String :=
  String.mk (s.data.foldr (fun c acc =>
    (if isUriUnreserved c.toNat then [c]
     else (utf8Bytes c.toNat).foldr (fun b acc2 => percentByte b ++ acc2) []) ++ acc) [])

/-- Left-to-right, non-overlapping replacement of `%20` by `+`
(JavaScript `.replace(/%20/g, '+')`). -/
def replacePct20 : List Char → List Char
  | c1 :: c2 :: c3 :: rest =>
      if c1.toNat = 37 ∧ c2.toNat = 50 ∧ c3.toNat = 48 then
        Char.ofNat 43 :: replacePct20 rest
      else c1 :: replacePct20 (c2 :: c3 :: rest)
  | l => l

/-- Source `encodePf`:
`encodeURIComponent(v).replace(/%20/g, '+')`. -/
def encodePf (v : String) : String :=
  String.mk (replacePct20 (encodeURIComponent v).data)

/-- Join strings with `&` (JavaScript `Array.prototype.join('&')`). -/
def joinAmp : List String → String
  | [] => ""
  | [s] => s
  | s :: rest => s ++ "&" ++ joinAmp rest

/-- Split on `&` (JavaScript `String.prototype.split('&')` semantics:
`""` splits to `[""]`, separators at the ends produce empty components). -/
def splitAmp : List Char → List (List Char)
  | [] => [[]]
  | c :: rest =>
      if c.toNat = 38 then [] :: splitAmp rest
      else
        match splitAmp rest with
        | a :: as => (c :: a) :: as
        | [] => [[c]]

/-- ASCII lowercase, for the case-insensitive `/i` regex flag. -/
def lowerChar (c : Char) : Char :=
  if 65 ≤ c.toNat ∧ c.toNat ≤ 90 then Char.ofNat (c.toNat + 32) else c

/-- Digit characters `0-9`. -/
def isDigitChar (c : Char) : Bool := 48 ≤ c.toNat ∧ c.toNat ≤ 57

/-- Numeric value of a digit string (`foldl`, most significant first). -/
def digitsToNat (cs : List Char) : Nat :=
  cs.foldl (fun a c => a * 10 + (c.toNat - 48)) 0

/-- Split a character list at the first `.` (decimal point). -/
def splitDot : List Char → List Char × Option (List Char)
  | [] => ([], none)
  | c :: rest =>
      if c.toNat = 46 then ([], some rest)
      else
        let p := splitDot rest
        (c :: p.1, p.2)

/-- JavaScript `Number(s)` on the decimal formats that occur in gateway
payloads: optional leading minus, digits, optional single fraction part;
whitespace-only strings give `0`; anything else (including a second `.`)
is `NaN`, modelled as `none`.  Exponent/hex `Number` syntaxes never occur
in the modelled payloads. -/
def parseNum (s : String) : Option ℚ :=
  let t := jsTrim s
  if t = "" then some 0
  else
    let signAndDigits : Bool × List Char :=
      match t.data with
      | c :: rest => if c.toNat = 45 then (true, rest) else (false, t.data)
      | [] => (false, [])
    let neg := signAndDigits.1
    let body := signAndDigits.2
    let p := splitDot body
    let intPart := p.1
    let fracPart := (p.2).getD []
    if body = [] then none
    else if intPart = [] ∧ fracPart = [] then none
    else if ¬ (intPart.all isDigitChar ∧ fracPart.all isDigitChar) then none
    else
      let mag : ℚ := (digitsToNat intPart : ℚ) +
        (digitsToNat fracPart : ℚ) / ((10 : ℚ) ^ fracPart.length)
      some (if neg then -mag else mag)

/-- JavaScript `Math.round` (half-up, toward +∞ on ties) as a rational. -/
def jsRound (q : ℚ) : ℚ := (⌊q + 1/2⌋ : ℤ)

/-! ## Signature codec (PayFast helpers from the source) -/

/-- Options record `PayFastSignatureOpts { includeEmpty?, excludeKeys? }`. -/
structure PayFastSignatureOpts where
  includeEmpty : Option Bool := none
  excludeKeys : Option (List String) := none
deriving DecidableEq

/-- The filter loop of `buildPayFastQueryString`: drop excluded keys, trim
each value, and (unless `includeEmpty`) drop entries whose trimmed value is
empty.  Field maps are association lists with distinct keys (JavaScript
objects); `null`/`undefined` values cannot occur in a
`Record<string, string>`, so that branch of the source loop is vacuous. -/
def pfFilter (includeEmpty : Bool) (exclude : List String) :
    List (String × String) → List (String × String) :=
  List.filterMap (fun kv =>
    if kv.1 ∈ exclude then none
    else
      let c := cleanPf kv.2
      if includeEmpty = false ∧ c = "" then none
      else some (kv.1, c))

/-- Source `buildPayFastQueryString`: filter, sort the remaining
keys lexicographically (`Object.keys(filtered).sort()`), percent-encode each
value with space as `+`, and join `key=value` pairs with `&`.  Returns the
wire string and the sorted key list. -/
def buildPayFastQueryString (data : List (String × String))
    (opts : PayFastSignatureOpts) : String × List String :=
  let includeEmpty := decide (opts.includeEmpty = some true)
  let exclude := opts.excludeKeys.getD ["signature"]
  let filtered := pfFilter includeEmpty exclude data
  let sortedKeys := List.insertionSort (· ≤ ·) (filtered.map Prod.fst)
  let queryString :=
    joinAmp (sortedKeys.map (fun k => k ++ "=" ++ encodePf ((lookupA filtered k).getD "")))
  (queryString, sortedKeys)

/-- Source `generatePayFastSignature`: build the canonical query
string, append the raw (trimmed, un-encoded) passphrase when non-empty, and
hash.  The 128-bit MD5 digest is the abstract parameter `h`. -/
def generatePayFastSignature (h : String → String) (data : List (String × String))
    (passphrase : String) (opts : PayFastSignatureOpts) : String :=
  let qs := (buildPayFastQueryString data opts).1
  let pf := cleanPf passphrase
  h (if pf = "" then qs else qs ++ "&passphrase=" ++ pf)

/-- Modelled from the spec: §4.1 `verify(fields, passphrase,
receivedSignature, opts)` — "recompute and compare".  The repository has no
standalone verify function over a field map (outbound signatures are
verified by the gateway; the inbound webhook check recomputes inline over
the raw body), so this definition follows the spec's words, recomputing with
the source's `generatePayFastSignature`. -/
def pfVerify (h : String → String) (data : List (String × String))
    (passphrase : String) (receivedSignature : String)
    (opts : PayFastSignatureOpts) : Bool :=
  receivedSignature == generatePayFastSignature h data passphrase opts

/-! ## Data model

The Firestore documents the wallet engine reads and writes, as explicit
records.  Timestamp fields are outside the model; `payfastData` echo blobs
are reduced to the fields the engine later reads back.
-/

/-- The `wallets/{uid}` document. -/
structure Wallet where
  uid : String
  balance : ℚ
  currency : String
deriving DecidableEq

/-- The `wallets/{uid}/transactions/{id}` document.  Each operation writes a
different subset of fields; absent fields are `none`. -/
structure TxEntry where
  txType : String
  amount : ℚ
  currency : String
  status : String
  counterparty : Option String := none
  note : Option String := none
  provider : Option String := none
  paymentMethod : Option String := none
  pfPaymentId : Option String := none
  reason : Option String := none
  adminUid : Option String := none
  rideId : Option String := none
  platformFee : Option ℚ := none
  payoutToDriver : Option ℚ := none
deriving DecidableEq

/-- The `pending_payments/{paymentId}` document.  `pfPaymentId` models both
source locations the verify handler consults (`pfPaymentId` and
`payfastData.pf_payment_id`); `paymentMethod` is the field the ITN handler
writes back on completion. -/
structure PendingPayment where
  uid : String
  amount : ℚ
  currency : String
  status : String
  pfPaymentId : Option String := none
  paymentMethod : Option String := none
deriving DecidableEq

/-- The `groupWallets/{groupId}` document. -/
structure GroupWallet where
  balance : ℚ
  currency : String
  createdBy : String
deriving DecidableEq

/-- The `groupWallets/{groupId}/transactions/{id}` document. -/
structure GroupTxEntry where
  userId : String
  username : String
  txType : String
  amount : ℚ
  method : String
  currency : String
  status : String
deriving DecidableEq

/-- The `rides/{rideId}` document (the fields `payDriverOnComplete` reads and
writes; `paymentStatus` models `ride.payment?.status`). -/
structure Ride where
  userId : String
  status : String
  driverId : Option String
  estimatedFareZAR : ℚ
  paymentStatus : Option String
deriving DecidableEq

/-- The durable store: every collection the modelled handlers touch.
Transaction-log collections are keyed by `(ownerId, docId)`.  The
`drivers_live` availability flag and the `users` profile documents are
reduced to what the handlers read (`usernames`). -/
structure FireStore where
  wallets : List (String × Wallet)
  txs : List ((String × String) × TxEntry)
  pendingPayments : List (String × PendingPayment)
  groupWallets : List (String × GroupWallet)
  groupTxs : List ((String × String) × GroupTxEntry)
  rides : List (String × Ride)
  usernames : List (String × String)
deriving DecidableEq

/-- Source read `wSnap.exists ? Number(wSnap.get('balance') || 0) : 0`. -/
def walletBal (st : FireStore) (uid : String) : ℚ :=
  match lookupA st.wallets uid with
  | some w => w.balance
  | none => 0

/-- The transaction log of one owner (used to state "exactly N new
entries"). -/
def txsOf (st : FireStore) (uid : String) : List ((String × String) × TxEntry) :=
  st.txs.filter (fun p => p.1.1 = uid)

/-- Error codes of `HttpsError` as thrown by the source handlers. -/
inductive ErrCode where
  | invalidArgument
  | unauthenticated
  | permissionDenied
  | failedPrecondition
  | notFound
  | internal
deriving DecidableEq

/-- The `HttpsError(code, message)` pair. -/
structure HttpsError where
  code : ErrCode
  msg : String
deriving DecidableEq

/-- State seen by the caller after an operation: on a thrown `HttpsError`
the Firestore transaction rolled back, so the prior state stands. -/
def resultState (st : FireStore) : Except HttpsError FireStore → FireStore
  | .ok st2 => st2
  | .error _ => st

instance {ε α : Type} [DecidableEq ε] [DecidableEq α] : DecidableEq (Except ε α) :=
  fun x y =>
    match x, y with
    | .ok a, .ok b =>
        if h : a = b then isTrue (by rw [h]) else isFalse (by simp [h])
    | .ok _, .error _ => isFalse (by simp)
    | .error _, .ok _ => isFalse (by simp)
    | .error e, .error f =>
        if h : e = f then isTrue (by rw [h]) else isFalse (by simp [h])

/-! ## Transfer Engine -/

/-- Payload of the `transferFunds` callable. -/
structure P2PTransferPayload where
  toUid : String
  amount : ℚ
  note : Option String := none
deriving DecidableEq

/-- Source `transferFunds`.  `fromUid` is the authenticated caller
(`uidOrThrow`); `base` is `getBaseCurrency()`; `debitId`/`creditId` are the
two generated `_ids` document ids.  The `!amount || isNaN(...)` guard plus
`Number(amount) <= 0` collapse to `amount ≤ 0` on rationals (`NaN` is not a
rational).  The whole transaction body is the `else` branch; a thrown
`HttpsError` aborts it with no writes. -/
def transferFunds (st : FireStore) (fromUid : String) (p : P2PTransferPayload)
    (base debitId creditId : String) : Except HttpsError FireStore :=
  if p.toUid = "" then .error ⟨.invalidArgument, "toUid required"⟩
  else if p.toUid = fromUid then .error ⟨.invalidArgument, "Cannot send to yourself"⟩
  else if p.amount ≤ 0 then .error ⟨.invalidArgument, "amount must be > 0"⟩
  else
    let amt := p.amount
    let fromBal := walletBal st fromUid
    if fromBal < amt then .error ⟨.failedPrecondition, "Insufficient balance"⟩
    else
      let toBal := walletBal st p.toUid
      let wallets1 := setAssoc st.wallets fromUid ⟨fromUid, fromBal - amt, base⟩
      let wallets2 := setAssoc wallets1 p.toUid ⟨p.toUid, toBal + amt, base⟩
      let txs1 := setAssoc st.txs (fromUid, debitId)
        { txType := "TRANSFER_OUT", counterparty := some p.toUid, amount := amt,
          currency := base, note := p.note, status := "SUCCESS" }
      let txs2 := setAssoc txs1 (p.toUid, creditId)
        { txType := "TRANSFER_IN", counterparty := some fromUid, amount := amt,
          currency := base, note := p.note, status := "SUCCESS" }
      .ok { st with wallets := wallets2, txs := txs2 }

/-- Source `getWalletBalance`.  Returns `(balance, currency)` and
the (unchanged) store; the handler performs no writes. -/
def getWalletBalance (st : FireStore) (uid envCcy : String) :
    (ℚ × String) × FireStore :=
  match lookupA st.wallets uid with
  | none => ((0, getBaseCurrency envCcy), st)
  | some w =>
      ((w.balance,
        jsToUpper (if w.currency = "" then getBaseCurrency envCcy else w.currency)), st)

/-- Source `adminAdjustBalance`.  `caller` is the authenticated
uid; `isAdmin` is the `customClaims.admin === true` check; `delta` is the
signed adjustment (`Number(delta)`); `txId` the generated log id. -/
def adminAdjustBalance (st : FireStore) (caller : String) (isAdmin : Bool)
    (uid : String) (delta : ℚ) (reason : Option String) (base txId : String) :
    Except HttpsError FireStore :=
  if isAdmin = false then .error ⟨.permissionDenied, "Admin only"⟩
  else if uid = "" then .error ⟨.invalidArgument, "uid required"⟩
  else
    let bal := walletBal st uid
    let wallets1 := setAssoc st.wallets uid ⟨uid, bal + delta, base⟩
    let txs1 := setAssoc st.txs (uid, txId)
      { txType := "ADMIN_ADJUST", amount := delta, currency := base,
        reason := reason, status := "SUCCESS", adminUid := some caller }
    .ok { st with wallets := wallets1, txs := txs1 }

/-- Payload of the `depositToGroupWallet` callable. -/
structure DepositPayload where
  groupId : String
  amount : ℚ
  method : String
deriving DecidableEq

/-- Source read `groupWalletSnap.exists ? Number(groupWalletSnap.get('balance') || 0) : 0`. -/
def groupBalRead (st : FireStore) (groupId : String) : ℚ :=
  match lookupA st.groupWallets groupId with
  | some g => g.balance
  | none => 0

/-- Source `depositToGroupWallet` (wallet method): debit the
user's wallet, credit the group wallet, and append one group DEPOSIT log
entry, all in one transaction.  `txId` is the generated log id. -/
def depositToGroupWallet (st : FireStore) (uid : String) (p : DepositPayload)
    (base txId : String) : Except HttpsError FireStore :=
  if p.groupId = "" then .error ⟨.invalidArgument, "Missing groupId"⟩
  else if p.amount ≤ 0 then .error ⟨.invalidArgument, "Invalid deposit amount"⟩
  else if p.method ≠ "wallet" then .error ⟨.invalidArgument, "Only wallet method is supported"⟩
  else
    let username := (lookupA st.usernames uid).getD "Unknown User"
    match lookupA st.wallets uid with
    | none => .error ⟨.failedPrecondition, "User wallet not found"⟩
    | some w =>
        if w.balance < p.amount then .error ⟨.failedPrecondition, "Insufficient balance"⟩
        else
          let groupBal := groupBalRead st p.groupId
          let createdBy := match lookupA st.groupWallets p.groupId with
            | some g => g.createdBy
            | none => uid
          let wallets1 := setAssoc st.wallets uid ⟨uid, w.balance - p.amount, base⟩
          let groups1 := setAssoc st.groupWallets p.groupId
            ⟨groupBal + p.amount, base, createdBy⟩
          let gtxs1 := setAssoc st.groupTxs (p.groupId, txId)
            { userId := uid, username := username, txType := "DEPOSIT",
              amount := p.amount, method := "wallet", currency := base,
              status := "SUCCESS" }
          .ok { st with wallets := wallets1, groupWallets := groups1, groupTxs := gtxs1 }

/-- Source `payDriverOnComplete`.  `riderUid` is the caller,
`feeRateEnv` the parsed `APP_PLATFORM_FEE_RATE` value (default `0.20`),
`debitId`/`creditId` the generated log ids.  The early-exit branch for an
already-settled ride only re-frees the `drivers_live` flag (outside the
model) and succeeds without touching the ledger. -/
def payDriverOnComplete (st : FireStore) (riderUid rideId : String)
    (feeRateEnv : ℚ) (base debitId creditId : String) :
    Except HttpsError FireStore :=
  if rideId = "" then .error ⟨.invalidArgument, "rideId required"⟩
  else
    let feeRate := max 0 (min (95/100 : ℚ) feeRateEnv)
    match lookupA st.rides rideId with
    | none => .error ⟨.notFound, "Ride not found."⟩
    | some ride =>
        if ride.paymentStatus = some "authorized" ∨ ride.status = "completed" then .ok st
        else if ride.userId ≠ riderUid then .error ⟨.permissionDenied, "Not your ride."⟩
        else if ride.status ≠ "on_trip" then
          .error ⟨.failedPrecondition, "Ride must be on_trip to complete."⟩
        else
          match ride.driverId with
          | none => .error ⟨.failedPrecondition, "No assigned driver."⟩
          | some driverId =>
              let amount := ride.estimatedFareZAR
              if amount ≤ 0 then .error ⟨.failedPrecondition, "Invalid fare amount."⟩
              else
                let riderBal := walletBal st riderUid
                if riderBal < amount then
                  .error ⟨.failedPrecondition, "Insufficient rider balance."⟩
                else
                  let driverBal := walletBal st driverId
                  let platformFee := jsRound (amount * feeRate)
                  let payout := amount - platformFee
                  let wallets1 := setAssoc st.wallets riderUid
                    ⟨riderUid, riderBal - amount, base⟩
                  let wallets2 := setAssoc wallets1 driverId
                    ⟨driverId, driverBal + payout, base⟩
                  let txs1 := setAssoc st.txs (riderUid, debitId)
                    { txType := "RIDE_PAYMENT", rideId := some rideId,
                      counterparty := some driverId, amount := amount,
                      currency := base, platformFee := some platformFee,
                      payoutToDriver := some payout, status := "SUCCESS" }
                  let txs2 := setAssoc txs1 (driverId, creditId)
                    { txType := "RIDE_EARN", rideId := some rideId,
                      counterparty := some riderUid, amount := payout,
                      currency := base, platformFee := some platformFee,
                      status := "SUCCESS" }
                  let rides1 := updateAssoc
                    (fun r => { r with status := "completed",
                                       paymentStatus := some "authorized" })
                    st.rides rideId
                  .ok { st with wallets := wallets2, txs := txs2, rides := rides1 }

/-! ## Reconciliation Engine -/

/-- Truthy field read (`data[k]` used in a boolean position: `undefined`
and `''` are falsy). -/
def dataTruthy (d : List (String × String)) (k : String) : Option String :=
  match lookupA d k with
  | some v => if v = "" then none else some v
  | none => none

/-- An inbound ITN webhook request, after body handling.  `data` are the
parsed form fields (the source derives them from `rawBody` when present;
the model takes both, and uses each exactly where the source does:
`rawBody` for the signing string, `data` for field access). -/
structure ITNRequest where
  method : String
  rawBody : Option String
  data : List (String × String)
deriving DecidableEq

/-- The raw-body signing string: `rawBody` with the first
(case-insensitive) `signature=...` component removed
(`.replace(/(^|&)signature=[^&]*/i, '').replace(/^&/, '').replace(/&$/, '')`),
implemented on `&`-components, then one leading/trailing `&` dropped. -/
def stripSignatureParam (raw : String) : String :=
  let rec removeFirstSig : List (List Char) → List (List Char)
    | [] => []
    | p :: rest =>
        if (p.map lowerChar).take 10 = "signature=".data then rest
        else p :: removeFirstSig rest
  let joined := (joinAmp ((removeFirstSig (splitAmp raw.data)).map String.mk)).data
  let dropLead : List Char → List Char
    | c :: rest => if c.toNat = 38 then rest else c :: rest
    | [] => []
  String.mk (dropLead (dropLead joined.reverse).reverse)

/-- The fallback signing string, reconstructed from the parsed fields:
delete `signature`, sort the keys, `key=encodeURIComponent(v)` with
`%20 → +`, join with `&`.  Unlike `buildPayFastQueryString`, values are not
trimmed and empty values are kept. -/
def itnFallbackString (d : List (String × String)) : String :=
  let signingData := d.filter (fun kv => kv.1 ≠ "signature")
  let sortedKeys := List.insertionSort (· ≤ ·) (signingData.map Prod.fst)
  joinAmp (sortedKeys.map (fun k => k ++ "=" ++ encodePf ((lookupA signingData k).getD "")))

/-- Which signing string the ITN handler uses: the raw body when truthy,
otherwise the reconstruction from parsed fields. -/
def itnSigningString (req : ITNRequest) : String :=
  match req.rawBody with
  | some raw => if raw = "" then itnFallbackString req.data else stripSignatureParam raw
  | none => itnFallbackString req.data

/-- The string the ITN handler hashes: signing string plus
`&passphrase=<passphrase>` when the passphrase is truthy. -/
def itnFinalString (passphrase : String) (req : ITNRequest) : String :=
  let s := itnSigningString req
  if passphrase = "" then s else s ++ "&passphrase=" ++ passphrase

/-- The pre-transaction idempotency read of the ITN handler (one snapshot
of `pending_payments/{paymentId}`): proceed to the credit transaction only
when the record exists and is not COMPLETED.  Both the not-found case and
the already-COMPLETED case acknowledge with `200 OK` and change nothing. -/
def itnGate (st : FireStore) (paymentId : String) : Bool :=
  match lookupA st.pendingPayments paymentId with
  | none => false
  | some p => p.status ≠ "COMPLETED"

/-- The ITN credit transaction (`db.runTransaction` body): read the wallet,
write `balance + amount`, write the TOP_UP log entry at the deterministic
id `paymentId`, and mark the pending payment COMPLETED (also recording
`pfPaymentId` and `paymentMethod`).  One atomic state update. -/
def itnCreditTx (st : FireStore) (paymentId uid : String) (amount : ℚ)
    (base pm : String) (pfId : Option String) : FireStore :=
  let prevBalance := walletBal st uid
  let wallets1 := setAssoc st.wallets uid ⟨uid, prevBalance + amount, base⟩
  let txs1 := setAssoc st.txs (uid, paymentId)
    { txType := "TOP_UP", provider := some "PAYFAST", paymentMethod := some pm,
      amount := amount, currency := base, status := "SUCCESS", pfPaymentId := pfId }
  let pendings1 := updateAssoc
    (fun p => { p with status := "COMPLETED", pfPaymentId := pfId,
                       paymentMethod := some pm })
    st.pendingPayments paymentId
  { st with wallets := wallets1, txs := txs1, pendingPayments := pendings1 }

/-- Source `payfastITN`: the webhook handler, from method check to
acknowledgement.  `h` is MD5, `merchantKeyEnv`/`passphraseEnv` the secret
values (`cleanPf`-ed on entry as in the source), `ccyEnv` the base-currency
environment value.  Returns `(status, body)` and the store afterward. -/
def payfastITN (h : String → String) (merchantKeyEnv passphraseEnv ccyEnv : String)
    (st : FireStore) (req : ITNRequest) : (Nat × String) × FireStore :=
  if req.method ≠ "POST" then ((405, "Method not allowed"), st)
  else
    let merchantKey := cleanPf merchantKeyEnv
    let passphrase := cleanPf passphraseEnv
    if merchantKey = "" then ((500, "Configuration error"), st)
    else
      match dataTruthy req.data "signature" with
      | none => ((400, "Missing signature"), st)
      | some receivedSignature =>
          let calculatedSignature := h (itnFinalString passphrase req)
          if receivedSignature ≠ calculatedSignature then ((400, "Invalid signature"), st)
          else if lookupA req.data "payment_status" ≠ some "COMPLETE" then ((200, "OK"), st)
          else
            let paymentId := (lookupA req.data "m_payment_id").getD ""
            let uid := (lookupA req.data "custom_str1").getD ""
            let amountOpt := match lookupA req.data "amount_gross" with
              | none => none
              | some s => parseNum s
            if paymentId = "" ∨ uid = "" ∨ amountOpt = none ∨ amountOpt = some 0 then
              ((400, "Missing required fields"), st)
            else
              let amount := amountOpt.getD 0
              if itnGate st paymentId then
                ((200, "OK"),
                  itnCreditTx st paymentId uid amount (getBaseCurrency ccyEnv)
                    ((dataTruthy req.data "payment_method").getD "UNKNOWN")
                    (dataTruthy req.data "pf_payment_id"))
              else ((200, "OK"), st)

/-- One realizable interleaving of two deliveries of the same (verified,
COMPLETE) webhook: each delivery performs its pre-transaction idempotency
read before either has committed its credit transaction, then both commit.
The handler awaits the `pending_payments` snapshot and the transaction as
two separate store round-trips, so this schedule is allowed by the
concurrency model of §5 (stateless concurrent handlers, shared durable
store). -/
def itnTwoDeliveries (st : FireStore) (paymentId uid : String) (amount : ℚ)
    (base pm : String) (pfId : Option String) : FireStore :=
  let gateA := itnGate st paymentId
  let gateB := itnGate st paymentId
  let st1 := if gateA then itnCreditTx st paymentId uid amount base pm pfId else st
  let st2 := if gateB then itnCreditTx st1 paymentId uid amount base pm pfId else st1
  st2

/-- Result record of the `verifyPayFastPayment` callable. -/
structure VerifyResult where
  status : String
  credited : Option ℚ := none
  currency : Option String := none
  paymentMethod : Option String := none
  message : Option String := none
deriving DecidableEq

/-- Parsed result of the two gateway queries the verify handler issues:
the `/eng/query/validate` body and the parsed `/eng/query/get` body.
The HTTP exchange itself is an input to the model. -/
structure PfQueryResult where
  validateBody : String
  details : List (String × String)
deriving DecidableEq

/-- Source read `Number(details.amount_gross || 0)` in the verify handler. -/
def verifyAmount (gw : PfQueryResult) : ℚ :=
  (parseNum ((dataTruthy gw.details "amount_gross").getD "0")).getD 0

/-- The verify-path credit transaction (`db.runTransaction` body): credit
the **caller's** wallet, write the TOP_UP entry under the caller at the
deterministic id `paymentId`, and mark the pending payment COMPLETED
(status only).  One atomic state update. -/
def verifyCreditTx (st : FireStore) (uid paymentId : String) (amount : ℚ)
    (base : String) (details : List (String × String)) : FireStore :=
  let prevBalance := walletBal st uid
  let wallets1 := setAssoc st.wallets uid ⟨uid, prevBalance + amount, base⟩
  let txs1 := setAssoc st.txs (uid, paymentId)
    { txType := "TOP_UP", provider := some "PAYFAST",
      paymentMethod := some ((dataTruthy details "payment_method").getD "UNKNOWN"),
      amount := amount, currency := base, status := "SUCCESS",
      pfPaymentId := dataTruthy details "pf_payment_id" }
  let pendings1 := updateAssoc (fun p => { p with status := "COMPLETED" })
    st.pendingPayments paymentId
  { st with wallets := wallets1, txs := txs1, pendingPayments := pendings1 }

/-- Source `verifyPayFastPayment`.  `uid` is the authenticated
caller (`uidOrThrow`); `merchantIdEnv`/`merchantKeyEnv` the credentials;
`gw` the gateway's responses.  The outbound query-string signing only feeds
the request URL, so it does not appear in the state model.  Note the credit
is gated on the same `pendingSnap` read before the gateway round-trips, and
is applied to the caller's `uid`. -/
def verifyPayFastPayment (st : FireStore) (uid paymentId : String)
    (merchantIdEnv merchantKeyEnv ccyEnv : String) (gw : PfQueryResult) :
    Except HttpsError (FireStore × VerifyResult) :=
  if paymentId = "" then .error ⟨.invalidArgument, "paymentId required"⟩
  else if cleanPf merchantIdEnv = "" ∨ cleanPf merchantKeyEnv = "" then
    .error ⟨.failedPrecondition, "PayFast credentials not configured"⟩
  else
    match lookupA st.pendingPayments paymentId with
    | none => .error ⟨.notFound, "Payment not found"⟩
    | some pending =>
        if pending.status = "COMPLETED" then
          .ok (st,
            { status := "SUCCESS", credited := some pending.amount,
              currency := some (if pending.currency = "" then getBaseCurrency ccyEnv
                                else pending.currency),
              paymentMethod := some (pending.paymentMethod.getD "UNKNOWN") })
        else
          match pending.pfPaymentId with
          | none =>
              .ok (st,
                { status := "PENDING",
                  message := some "Payment processing, please wait a moment" })
          | some _ =>
              if gw.validateBody = "VALID" ∧
                  lookupA gw.details "payment_status" = some "COMPLETE" then
                let amount := verifyAmount gw
                let base := getBaseCurrency ccyEnv
                let st2 := if pending.status ≠ "COMPLETED" then
                    verifyCreditTx st uid paymentId amount base gw.details
                  else st
                .ok (st2,
                  { status := "SUCCESS", credited := some amount,
                    currency := some base,
                    paymentMethod := lookupA gw.details "payment_method" })
              else
                .ok (st,
                  { status := "PENDING",
                    message := some "Payment not yet complete" })

/-- State component of a verify-handler outcome (errors roll back). -/
def resultStateV (st : FireStore) : Except HttpsError (FireStore × VerifyResult) → FireStore
  | .ok (st2, _) => st2
  | .error _ => st

/-- All balances in the store (user wallets and group wallets) are
non-negative. -/
def allBalancesNonneg (st : FireStore) : Prop :=
  (∀ p ∈ st.wallets, 0 ≤ p.2.balance) ∧ (∀ p ∈ st.groupWallets, 0 ≤ p.2.balance)

instance (st : FireStore) : Decidable (allBalancesNonneg st) := by
  unfold allBalancesNonneg
  infer_instance

/-! ## Concrete fixtures

States, requests and gateway responses used by the closed counterexample
and witness theorems.
-/

/-- A store with no documents. -/
def emptyStore : FireStore :=
  { wallets := [], txs := [], pendingPayments := [], groupWallets := [],
    groupTxs := [], rides := [], usernames := [] }

/-- A stand-in digest: every claim is parametric in the hash, so a constant
function suffices for concrete instantiations. -/
def constSig : String → String := fun _ => "SIG"

/-- Owner `u` with balance `0` and a PENDING payment `p1` over `100`. -/
def raceStore : FireStore :=
  { emptyStore with
    wallets := [("u", ⟨"u", 0, "ZAR"⟩)],
    pendingPayments :=
      [("p1", { uid := "u", amount := 100, currency := "ZAR", status := "PENDING" })] }

/-- A verified COMPLETE webhook delivery for `p1`. -/
def raceReq : ITNRequest :=
  { method := "POST",
    rawBody := some
      "amount_gross=100&custom_str1=u&m_payment_id=p1&payment_method=cc&payment_status=COMPLETE&pf_payment_id=pf9&signature=SIG",
    data := [("amount_gross", "100"), ("custom_str1", "u"), ("m_payment_id", "p1"),
             ("payment_method", "cc"), ("payment_status", "COMPLETE"),
             ("pf_payment_id", "pf9"), ("signature", "SIG")] }

/-- A verified webhook delivery whose `payment_status` is not COMPLETE. -/
def pendingStatusReq : ITNRequest :=
  { method := "POST",
    rawBody := some
      "amount_gross=100&custom_str1=u&m_payment_id=p1&payment_status=PENDING&signature=SIG",
    data := [("amount_gross", "100"), ("custom_str1", "u"), ("m_payment_id", "p1"),
             ("payment_status", "PENDING"), ("signature", "SIG")] }

/-- Accounts `a` (balance 50) and `b` (balance 5). -/
def abStore : FireStore :=
  { emptyStore with
    wallets := [("a", ⟨"a", 50, "ZAR"⟩), ("b", ⟨"b", 5, "ZAR"⟩)] }

/-- State `abStore` after an admin adjustment of `-150` against `a`. -/
def abStoreAdjusted : FireStore :=
  resultState abStore (adminAdjustBalance abStore "adm" true "a" (-150) none "ZAR" "t1")

/-- Accounts `a` (balance 100) and `b` (balance 5), for the transfer demo. -/
def tDemoStore : FireStore :=
  { emptyStore with
    wallets := [("a", ⟨"a", 100, "ZAR"⟩), ("b", ⟨"b", 5, "ZAR"⟩)] }

/-- State `tDemoStore` after `a` transfers 30 to `b`. -/
def tDemoAfter : FireStore :=
  resultState tDemoStore (transferFunds tDemoStore "a" ⟨"b", 30, none⟩ "ZAR" "d1" "c1")

/-- Payment `p1` owned by `owner`, known to the webhook (`pfPaymentId` set),
and two wallets: the owner's (balance 5) and another user's (balance 7). -/
def verifyDemoStore : FireStore :=
  { emptyStore with
    wallets := [("owner", ⟨"owner", 5, "ZAR"⟩), ("attacker", ⟨"attacker", 7, "ZAR"⟩)],
    pendingPayments :=
      [("p1", { uid := "owner", amount := 100, currency := "ZAR",
                status := "PENDING", pfPaymentId := some "pf9" })] }

/-- Gateway answers: the payment validates and is COMPLETE over 100. -/
def gwComplete : PfQueryResult :=
  { validateBody := "VALID",
    details := [("payment_status", "COMPLETE"), ("amount_gross", "100"),
                ("payment_method", "cc"), ("pf_payment_id", "pf9")] }

/-- State `verifyDemoStore` after user `attacker` calls the verify handler on
`owner`'s payment `p1`. -/
def verifyDemoAfter : FireStore :=
  resultStateV verifyDemoStore
    (verifyPayFastPayment verifyDemoStore "attacker" "p1" "m" "k" "" gwComplete)

/-- Rider `r` (balance 100), driver `d` (balance 0), and a ride on trip
with fare 50. -/
def rideStore : FireStore :=
  { emptyStore with
    wallets := [("r", ⟨"r", 100, "ZAR"⟩), ("d", ⟨"d", 0, "ZAR"⟩)],
    rides := [("ride1", { userId := "r", status := "on_trip",
                          driverId := some "d", estimatedFareZAR := 50,
                          paymentStatus := none })] }

/-- State `rideStore` after settlement at the default 20% fee rate. -/
def rideAfter : FireStore :=
  resultState rideStore (payDriverOnComplete rideStore "r" "ride1" (2/10) "ZAR" "d1" "c1")

/-- A user wallet (balance 50) and a group wallet (balance 10). -/
def groupDemoStore : FireStore :=
  { emptyStore with
    wallets := [("a", ⟨"a", 50, "ZAR"⟩)],
    groupWallets := [("g", ⟨10, "ZAR", "a"⟩)] }

/-- State `groupDemoStore` after `a` deposits 20 into group `g`. -/
def groupDemoAfter : FireStore :=
  resultState groupDemoStore
    (depositToGroupWallet groupDemoStore "a" ⟨"g", 20, "wallet"⟩ "ZAR" "t1")

/-! ## General lemmas about the store primitives and the codec -/

theorem lookupA_setAssoc_self {α β : Type} [DecidableEq α]
    (l : List (α × β)) (k : α) (v : β) : lookupA (setAssoc l k v) k = some v := by
  induction l with
  | nil => simp [setAssoc, lookupA]
  | cons p rest ih =>
      by_cases hk : p.1 = k
      · simp [setAssoc, hk, lookupA]
      · simp [setAssoc, hk, lookupA, ih]

theorem lookupA_setAssoc_ne {α β : Type} [DecidableEq α]
    (l : List (α × β)) (k k2 : α) (v : β) (h : k2 ≠ k) :
    lookupA (setAssoc l k v) k2 = lookupA l k2 := by
  have h2 : k ≠ k2 := Ne.symm h
  induction l with
  | nil => simp [setAssoc, lookupA, h2]
  | cons p rest ih =>
      obtain ⟨a, b⟩ := p
      by_cases hk : a = k
      · subst hk
        simp [setAssoc, lookupA, h2]
      · simp [setAssoc, hk, lookupA, ih]

theorem setAssoc_of_lookupA_none {α β : Type} [DecidableEq α]
    (l : List (α × β)) (k : α) (v : β) (h : lookupA l k = none) :
    setAssoc l k v = l ++ [(k, v)] := by
  induction l with
  | nil => simp [setAssoc]
  | cons p rest ih =>
      by_cases hk : p.1 = k
      · simp [lookupA, hk] at h
      · simp [lookupA, hk] at h
        simp [setAssoc, hk, ih h]

theorem mem_setAssoc {α β : Type} [DecidableEq α]
    (l : List (α × β)) (k : α) (v : β) (p : α × β) (hp : p ∈ setAssoc l k v) :
    p = (k, v) ∨ p ∈ l := by
  induction l with
  | nil => simp [setAssoc] at hp; exact Or.inl hp
  | cons q rest ih =>
      obtain ⟨a, b⟩ := q
      by_cases hk : a = k
      · simp [setAssoc, hk] at hp
        rcases hp with h1 | h1
        · exact Or.inl h1
        · exact Or.inr (List.mem_cons_of_mem _ h1)
      · simp [setAssoc, hk] at hp
        rcases hp with h1 | h1
        · exact Or.inr (by simp [h1])
        · rcases ih h1 with h2 | h2
          · exact Or.inl h2
          · exact Or.inr (List.mem_cons_of_mem _ h2)

theorem mem_updateAssoc {α β : Type} [DecidableEq α]
    (f : β → β) (l : List (α × β)) (k : α) (p : α × β) (hp : p ∈ updateAssoc f l k) :
    p ∈ l ∨ ∃ q : α × β, q ∈ l ∧ p = (q.1, f q.2) := by
  induction l with
  | nil => simp [updateAssoc] at hp
  | cons q rest ih =>
      obtain ⟨a, b⟩ := q
      by_cases hk : a = k
      · simp [updateAssoc, hk] at hp
        rcases hp with h1 | h1
        · refine Or.inr ⟨(a, b), by simp, ?_⟩
          show p = (a, f b)
          rw [hk]
          exact h1
        · exact Or.inl (List.mem_cons_of_mem _ h1)
      · simp [updateAssoc, hk] at hp
        rcases hp with h1 | h1
        · exact Or.inl (by simp [h1])
        · rcases ih h1 with h2 | h2
          · exact Or.inl (List.mem_cons_of_mem _ h2)
          · rcases h2 with ⟨r, hr, he⟩
            exact Or.inr ⟨r, List.mem_cons_of_mem _ hr, he⟩

theorem lookupA_append_none {α β : Type} [DecidableEq α]
    (l1 l2 : List (α × β)) (k : α) (h : lookupA l1 k = none) :
    lookupA (l1 ++ l2) k = lookupA l2 k := by
  induction l1 with
  | nil => simp
  | cons p rest ih =>
      obtain ⟨a, b⟩ := p
      by_cases hk : a = k
      · simp [lookupA, hk] at h
      · simp [lookupA, hk] at h
        simp [lookupA, hk, ih h]

theorem lookupA_mem {α β : Type} [DecidableEq α]
    (l : List (α × β)) (k : α) (v : β) (h : lookupA l k = some v) : (k, v) ∈ l := by
  induction l with
  | nil => simp [lookupA] at h
  | cons p rest ih =>
      obtain ⟨a, b⟩ := p
      by_cases hk : a = k
      · simp [lookupA, hk] at h
        subst hk
        subst h
        exact List.mem_cons_self _ _
      · simp [lookupA, hk] at h
        exact List.mem_cons_of_mem _ (ih h)

/-- The filter step of `buildPayFastQueryString` keeps keys unchanged, so
the filtered key list is a sublist of the input key list. -/
theorem pfFilter_keys_sublist (ie : Bool) (ex : List String)
    (d : List (String × String)) :
    ((pfFilter ie ex d).map Prod.fst).Sublist (d.map Prod.fst) := by
  induction d with
  | nil => simp [pfFilter]
  | cons kv rest ih =>
      by_cases h1 : kv.1 ∈ ex
      · simp only [pfFilter, List.filterMap_cons, if_pos h1, List.map_cons]
        exact (ih).cons _
      · by_cases h2 : ie = false ∧ cleanPf kv.2 = ""
        · simp only [pfFilter, List.filterMap_cons, if_neg h1, if_pos h2, List.map_cons]
          exact (ih).cons _
        · simp only [pfFilter, List.filterMap_cons, if_neg h1, if_neg h2, List.map_cons]
          exact (ih).cons₂ _

/-- Association-list lookup is invariant under permutation when keys are
distinct (so a JavaScript object read through two enumeration orders agrees). -/
theorem lookupA_perm {α β : Type} [DecidableEq α] {l1 l2 : List (α × β)}
    (hperm : l1.Perm l2) :
    (l1.map Prod.fst).Nodup → ∀ k, lookupA l1 k = lookupA l2 k := by
  induction hperm with
  | nil => intro _ _; rfl
  | cons x h ih =>
      intro hnd k
      obtain ⟨a, b⟩ := x
      simp only [List.map_cons, List.nodup_cons] at hnd
      by_cases hk : a = k
      · simp [lookupA, hk]
      · simp [lookupA, hk, ih hnd.2 k]
  | swap x y l =>
      intro hnd k
      obtain ⟨a, b⟩ := x
      obtain ⟨c, d⟩ := y
      simp only [List.map_cons, List.nodup_cons, List.mem_cons] at hnd
      have hac : c ≠ a := fun e => hnd.1 (Or.inl e)
      have hca : a ≠ c := fun e => hac (Eq.symm e)
      by_cases hk : c = k
      · subst hk
        simp [lookupA, hca]
      · by_cases hk2 : a = k
        · simp [lookupA, hk, hk2]
        · simp [lookupA, hk, hk2]
  | trans h1 h2 ih1 ih2 =>
      intro hnd k
      have hnd2 := ((h1.map Prod.fst).nodup_iff).mp hnd
      exact (ih1 hnd k).trans (ih2 hnd2 k)

/-- Canonicalization is insertion-order independent: permuting a field map
with distinct keys does not change `buildPayFastQueryString`. -/
theorem buildPayFastQueryString_perm (d1 d2 : List (String × String))
    (opts : PayFastSignatureOpts) (hperm : d1.Perm d2)
    (hnd : (d1.map Prod.fst).Nodup) :
    buildPayFastQueryString d1 opts = buildPayFastQueryString d2 opts := by
  unfold buildPayFastQueryString
  have hpf : (pfFilter (decide (opts.includeEmpty = some true))
      (opts.excludeKeys.getD ["signature"]) d1).Perm
      (pfFilter (decide (opts.includeEmpty = some true))
      (opts.excludeKeys.getD ["signature"]) d2) := hperm.filterMap _
  have hnd1 : ((pfFilter (decide (opts.includeEmpty = some true))
      (opts.excludeKeys.getD ["signature"]) d1).map Prod.fst).Nodup :=
    hnd.sublist (pfFilter_keys_sublist _ _ _)
  have hkeys := hpf.map Prod.fst
  have hsorted :
      List.insertionSort (· ≤ ·) ((pfFilter (decide (opts.includeEmpty = some true))
        (opts.excludeKeys.getD ["signature"]) d1).map Prod.fst) =
      List.insertionSort (· ≤ ·) ((pfFilter (decide (opts.includeEmpty = some true))
        (opts.excludeKeys.getD ["signature"]) d2).map Prod.fst) := by
    have hs1 := List.sorted_insertionSort (· ≤ ·)
      ((pfFilter (decide (opts.includeEmpty = some true))
        (opts.excludeKeys.getD ["signature"]) d1).map Prod.fst)
    have hs2 := List.sorted_insertionSort (· ≤ ·)
      ((pfFilter (decide (opts.includeEmpty = some true))
        (opts.excludeKeys.getD ["signature"]) d2).map Prod.fst)
    exact List.eq_of_perm_of_sorted
      ((List.perm_insertionSort _ _).trans
        (hkeys.trans (List.perm_insertionSort _ _).symm)) hs1 hs2
  have hlook : ∀ k, lookupA (pfFilter (decide (opts.includeEmpty = some true))
      (opts.excludeKeys.getD ["signature"]) d1) k =
      lookupA (pfFilter (decide (opts.includeEmpty = some true))
      (opts.excludeKeys.getD ["signature"]) d2) k :=
    lookupA_perm hpf hnd1
  simp only [hsorted]
  refine congrArg (fun z => (z, _)) ?_
  refine congrArg joinAmp ?_
  exact List.map_congr_left (fun k _ => by rw [hlook k])

theorem lookupA_updateAssoc_self {α β : Type} [DecidableEq α]
    (f : β → β) (l : List (α × β)) (k : α) :
    lookupA (updateAssoc f l k) k = (lookupA l k).map f := by
  induction l with
  | nil => simp [updateAssoc, lookupA]
  | cons p rest ih =>
      obtain ⟨a, b⟩ := p
      by_cases hk : a = k
      · simp [updateAssoc, hk, lookupA]
      · simp [updateAssoc, hk, lookupA, ih]

/-- Two fresh writes to a transaction-log collection append two documents. -/
theorem setAssoc_two_fresh {α β : Type} [DecidableEq α]
    (l : List (α × β)) (k1 k2 : α) (e1 e2 : β)
    (h1 : lookupA l k1 = none) (h2 : lookupA l k2 = none) (hk : k1 ≠ k2) :
    setAssoc (setAssoc l k1 e1) k2 e2 = l ++ [(k1, e1), (k2, e2)] := by
  rw [setAssoc_of_lookupA_none _ _ _ h1]
  rw [setAssoc_of_lookupA_none _ _ _
    (by rw [lookupA_append_none _ _ _ h2]; simp [lookupA, hk])]
  simp

/-- Reading any balance of a store whose wallets are all non-negative gives
a non-negative number (a missing wallet reads as 0). -/
theorem walletBal_nonneg (st : FireStore) (uid : String)
    (hnn : ∀ p ∈ st.wallets, 0 ≤ p.2.balance) : 0 ≤ walletBal st uid := by
  unfold walletBal
  cases h : lookupA st.wallets uid with
  | none => exact le_refl 0
  | some w => exact hnn (uid, w) (lookupA_mem _ _ _ h)

/-- Reading any group balance of a store whose group wallets are all
non-negative gives a non-negative number. -/
theorem groupBalRead_nonneg (st : FireStore) (gid : String)
    (hnn : ∀ p ∈ st.groupWallets, 0 ≤ p.2.balance) : 0 ≤ groupBalRead st gid := by
  unfold groupBalRead
  cases h : lookupA st.groupWallets gid with
  | none => exact le_refl 0
  | some g => exact hnn (gid, g) (lookupA_mem _ _ _ h)

/-! ## Claim theorems -/

/-- C6: for every field set, every passphrase (including the empty one) and
every signing option set, recomputing the signature over the same inputs
and comparing it with the signing function's output yields `true`:
`verify(fields, passphrase, sign(fields, passphrase, opts), opts) = true`. -/
theorem payfast_signature_roundtrip (h : String → String)
    (fields : List (String × String)) (passphrase : String)
    (opts : PayFastSignatureOpts) :
    pfVerify h fields passphrase
      (generatePayFastSignature h fields passphrase opts) opts = true := by
  simp [pfVerify]

/-- C7: the signature is insensitive to key insertion order: two field maps
holding the same key-value pairs (distinct keys, as JavaScript objects
have) in different orders sign identically, because canonicalization sorts
the remaining keys. -/
theorem payfast_signature_order_independent (h : String → String)
    (d1 d2 : List (String × String)) (passphrase : String)
    (opts : PayFastSignatureOpts) (hperm : d1.Perm d2)
    (hnd : (d1.map Prod.fst).Nodup) :
    generatePayFastSignature h d1 passphrase opts =
      generatePayFastSignature h d2 passphrase opts := by
  unfold generatePayFastSignature
  rw [buildPayFastQueryString_perm d1 d2 opts hperm hnd]

/-- Witness for C7 at a concrete pair of insertion orders. -/
theorem payfast_signature_order_independent_w :
    ([("b", "2"), ("a", "1 x")] : List (String × String)).Perm
      [("a", "1 x"), ("b", "2")] ∧
    generatePayFastSignature constSig [("b", "2"), ("a", "1 x")] "p" {} =
      generatePayFastSignature constSig [("a", "1 x"), ("b", "2")] "p" {} :=
  ⟨by decide,
   payfast_signature_order_independent constSig _ _ "p" {} (by decide) (by decide)⟩

/-- C10: for a caller without a wallet document, `getWalletBalance` returns
balance 0 with the configured base currency and leaves the store untouched
(no wallet document is created). -/
theorem getWalletBalance_missing_wallet (st : FireStore) (uid envCcy : String)
    (habs : lookupA st.wallets uid = none) :
    getWalletBalance st uid envCcy = ((0, getBaseCurrency envCcy), st) := by
  simp [getWalletBalance, habs]

/-- Witness for C10 on the empty store. -/
theorem getWalletBalance_missing_wallet_w :
    lookupA emptyStore.wallets "u" = none ∧
    getWalletBalance emptyStore "u" "" = ((0, getBaseCurrency ""), emptyStore) :=
  ⟨by decide, getWalletBalance_missing_wallet emptyStore "u" "" (by decide)⟩

/-- C4 counterexample: a self-transfer whose amount exceeds the sender's
balance is rejected as `invalid-argument`, not `failed-precondition`, so
"every transfer request whose amount exceeds the sender's current balance
fails with a FailedPrecondition error" is false as stated. -/
theorem transfer_self_excess_invalid_argument :
    walletBal abStore "a" < 100 ∧
    transferFunds abStore "a" ⟨"a", 100, none⟩ "ZAR" "d1" "c1" =
      .error ⟨.invalidArgument, "Cannot send to yourself"⟩ ∧
    ErrCode.invalidArgument ≠ ErrCode.failedPrecondition := by
  with_unfolding_all decide

/-- C4 (amended): every transfer request that passes argument validation
(non-empty distinct recipient, positive amount) and whose amount exceeds
the sender's balance fails with `failed-precondition` and leaves the store
unchanged — no balance moves, no log entry. -/
theorem transfer_insufficient_rejected (st : FireStore) (fromUid : String)
    (p : P2PTransferPayload) (base dId cId : String)
    (hto : p.toUid ≠ "") (hne : p.toUid ≠ fromUid) (hpos : 0 < p.amount)
    (hins : walletBal st fromUid < p.amount) :
    transferFunds st fromUid p base dId cId =
      .error ⟨.failedPrecondition, "Insufficient balance"⟩ ∧
    resultState st (transferFunds st fromUid p base dId cId) = st := by
  have h1 : transferFunds st fromUid p base dId cId =
      .error ⟨.failedPrecondition, "Insufficient balance"⟩ := by
    unfold transferFunds
    rw [if_neg hto, if_neg hne, if_neg (not_le.mpr hpos), if_pos hins]
  exact ⟨h1, by rw [h1]; rfl⟩

/-- Witness for the amended C4. -/
theorem transfer_insufficient_rejected_w :
    walletBal abStore "a" < 60 ∧
    transferFunds abStore "a" ⟨"b", 60, none⟩ "ZAR" "d1" "c1" =
      .error ⟨.failedPrecondition, "Insufficient balance"⟩ ∧
    resultState abStore (transferFunds abStore "a" ⟨"b", 60, none⟩ "ZAR" "d1" "c1") =
      abStore :=
  have app := transfer_insufficient_rejected abStore "a" ⟨"b", 60, none⟩ "ZAR" "d1" "c1"
    (by decide) (by decide) (by with_unfolding_all decide) (by with_unfolding_all decide)
  ⟨by with_unfolding_all decide, app.1, app.2⟩

/-- C9: a webhook delivery whose signature verifies but whose
`payment_status` is not `COMPLETE` is acknowledged with HTTP 200 and body
`OK`, and the store is untouched: no balance change, no log entry, the
pending payment keeps its prior status. -/
theorem itn_non_complete_ack_noop (h : String → String)
    (mkEnv passEnv ccyEnv : String) (st : FireStore) (req : ITNRequest)
    (sig : String)
    (hm : req.method = "POST") (hk : cleanPf mkEnv ≠ "")
    (hsig : dataTruthy req.data "signature" = some sig)
    (hmatch : sig = h (itnFinalString (cleanPf passEnv) req))
    (hst : lookupA req.data "payment_status" ≠ some "COMPLETE") :
    payfastITN h mkEnv passEnv ccyEnv st req = ((200, "OK"), st) := by
  unfold payfastITN
  rw [if_neg (by simp [hm]), if_neg hk, hsig]
  simp only []
  rw [if_neg (fun hne => hne hmatch), if_pos hst]

/-- Witness for C9: a signed delivery with `payment_status=PENDING`. -/
theorem itn_non_complete_ack_noop_w :
    dataTruthy pendingStatusReq.data "signature" = some "SIG" ∧
    lookupA pendingStatusReq.data "payment_status" ≠ some "COMPLETE" ∧
    payfastITN constSig "k" "" "" raceStore pendingStatusReq = ((200, "OK"), raceStore) :=
  have app := itn_non_complete_ack_noop constSig "k" "" "" raceStore pendingStatusReq
    "SIG" (by decide) (by decide) (by decide) (by decide) (by decide)
  ⟨by decide, by decide, app⟩

/-- C1 is violated under concurrency: the COMPLETED idempotency gate is a
pre-transaction read (`pendingRef.get()` before `db.runTransaction`, and the
transaction body never re-reads the pending record), so in the interleaving
where two deliveries of the same verified COMPLETE webhook both pass the
gate before either commits, both credit transactions commit: the balance
rises by `2 × amount` (here 200 instead of 100) even though exactly one
TOP_UP log entry exists (the log id is the deterministic `paymentId`, so
the second write overwrites the first).  The final conjunct ties the
interleaved steps to the full handler: a single delivery of the same
request performs exactly the credit transaction the schedule replays. -/
theorem itn_concurrent_double_credit :
    itnGate raceStore "p1" = true ∧
    walletBal raceStore "u" = 0 ∧
    walletBal (itnTwoDeliveries raceStore "p1" "u" 100 "ZAR" "cc" (some "pf9")) "u" = 200 ∧
    (txsOf (itnTwoDeliveries raceStore "p1" "u" 100 "ZAR" "cc" (some "pf9")) "u").length = 1 ∧
    (200 : ℚ) ≠ 100 ∧
    payfastITN constSig "k" "" "" raceStore raceReq =
      ((200, "OK"), itnCreditTx raceStore "p1" "u" 100 "ZAR" "cc" (some "pf9")) := by
  with_unfolding_all decide

/-- C5 counterexample: starting from a store whose balances are all
non-negative, a completed `adminAdjustBalance` with a sufficiently negative
delta leaves a negative balance — there is no floor check, so balance
non-negativity is not preserved by every balance-mutating operation. -/
theorem adminAdjust_drives_balance_negative :
    allBalancesNonneg abStore ∧
    adminAdjustBalance abStore "adm" true "a" (-150) none "ZAR" "t1" =
      .ok abStoreAdjusted ∧
    walletBal abStoreAdjusted "a" = -100 ∧
    ¬ allBalancesNonneg abStoreAdjusted := by
  with_unfolding_all decide

/-- C3: for distinct sender and recipient, positive amount and sufficient
sender balance, a completed `transferFunds` debits the sender by exactly
`amount`, credits the recipient by exactly `amount`, and appends exactly
one TRANSFER_OUT entry on the sender and one TRANSFER_IN entry on the
recipient, each naming the other party as counterparty; no other owner's
log or balance changes, and all effects sit in the one committed state. -/
theorem transferFunds_atomic_spec
    (st : FireStore) (fromUid : String) (p : P2PTransferPayload)
    (base debitId creditId : String) (st2 : FireStore)
    (hto : p.toUid ≠ "") (hne : p.toUid ≠ fromUid) (hpos : 0 < p.amount)
    (hbal : p.amount ≤ walletBal st fromUid)
    (hd : lookupA st.txs (fromUid, debitId) = none)
    (hc : lookupA st.txs (p.toUid, creditId) = none)
    (hok : transferFunds st fromUid p base debitId creditId = .ok st2) :
    walletBal st2 fromUid = walletBal st fromUid - p.amount ∧
    walletBal st2 p.toUid = walletBal st p.toUid + p.amount ∧
    txsOf st2 fromUid = txsOf st fromUid ++
      [((fromUid, debitId),
        { txType := "TRANSFER_OUT", counterparty := some p.toUid,
          amount := p.amount, currency := base, note := p.note,
          status := "SUCCESS" })] ∧
    txsOf st2 p.toUid = txsOf st p.toUid ++
      [((p.toUid, creditId),
        { txType := "TRANSFER_IN", counterparty := some fromUid,
          amount := p.amount, currency := base, note := p.note,
          status := "SUCCESS" })] ∧
    (∀ u, u ≠ fromUid → u ≠ p.toUid → txsOf st2 u = txsOf st u) ∧
    (∀ u, u ≠ fromUid → u ≠ p.toUid → walletBal st2 u = walletBal st u) := by
  have hfrom2 : fromUid ≠ p.toUid := fun e => hne (Eq.symm e)
  unfold transferFunds at hok
  rw [if_neg hto, if_neg hne, if_neg (not_le.mpr hpos),
    if_neg (not_lt.mpr hbal), Except.ok.injEq] at hok
  have hkey : ((fromUid, debitId) : String × String) ≠ (p.toUid, creditId) :=
    fun e => hfrom2 (congrArg Prod.fst e)
  subst hok
  refine ⟨?_, ?_, ?_, ?_, ?_, ?_⟩
  · simp only [walletBal]
    rw [lookupA_setAssoc_ne _ _ _ _ hfrom2, lookupA_setAssoc_self]
  · simp only [walletBal]
    rw [lookupA_setAssoc_self]
  · rw [setAssoc_two_fresh st.txs _ _ _ _ hd hc hkey]
    simp [txsOf, List.filter_append, hne]
  · rw [setAssoc_two_fresh st.txs _ _ _ _ hd hc hkey]
    simp [txsOf, List.filter_append, hfrom2]
  · intro u hu1 hu2
    have hu1s : fromUid ≠ u := fun e => hu1 (Eq.symm e)
    have hu2s : p.toUid ≠ u := fun e => hu2 (Eq.symm e)
    rw [setAssoc_two_fresh st.txs _ _ _ _ hd hc hkey]
    simp [txsOf, List.filter_append, hu1s, hu2s]
  · intro u hu1 hu2
    simp only [walletBal]
    rw [lookupA_setAssoc_ne _ _ _ _ hu2, lookupA_setAssoc_ne _ _ _ _ hu1]

/-- Witness for C3: `a` (balance 100) transfers 30 to `b` (balance 5). -/
theorem transferFunds_atomic_spec_w :
    walletBal tDemoAfter "a" = walletBal tDemoStore "a" - 30 ∧
    walletBal tDemoAfter "b" = walletBal tDemoStore "b" + 30 ∧
    txsOf tDemoAfter "a" = txsOf tDemoStore "a" ++
      [(("a", "d1"),
        { txType := "TRANSFER_OUT", counterparty := some "b", amount := 30,
          currency := "ZAR", note := none, status := "SUCCESS" })] ∧
    txsOf tDemoAfter "b" = txsOf tDemoStore "b" ++
      [(("b", "c1"),
        { txType := "TRANSFER_IN", counterparty := some "a", amount := 30,
          currency := "ZAR", note := none, status := "SUCCESS" })] :=
  have app := transferFunds_atomic_spec tDemoStore "a" ⟨"b", 30, none⟩ "ZAR" "d1" "c1"
    tDemoAfter (by decide) (by decide) (by with_unfolding_all decide)
    (by with_unfolding_all decide) (by decide) (by decide)
    (by with_unfolding_all decide)
  ⟨app.1, app.2.1, app.2.2.1, app.2.2.2.1⟩

/-- C8: a completed ride settlement splits the fare exactly:
`payout + platformFee = amount` with `platformFee = round(amount * feeRate)`
and the effective fee rate clamped into `[0, 0.95]`; the rider is debited
the full fare and the driver is credited the payout. -/
theorem payDriver_fee_split_conserved
    (st : FireStore) (riderUid rideId : String) (feeRateEnv : ℚ)
    (base dId cId : String) (st2 : FireStore) (ride : Ride) (driverId : String)
    (hid : rideId ≠ "")
    (hride : lookupA st.rides rideId = some ride)
    (hnotdone : ¬(ride.paymentStatus = some "authorized" ∨ ride.status = "completed"))
    (howner : ride.userId = riderUid)
    (htrip : ride.status = "on_trip")
    (hdrv : ride.driverId = some driverId)
    (hdistinct : riderUid ≠ driverId)
    (hamt : 0 < ride.estimatedFareZAR)
    (hbal : ride.estimatedFareZAR ≤ walletBal st riderUid)
    (hok : payDriverOnComplete st riderUid rideId feeRateEnv base dId cId = .ok st2) :
    (ride.estimatedFareZAR -
        jsRound (ride.estimatedFareZAR * max 0 (min (95/100 : ℚ) feeRateEnv))) +
      jsRound (ride.estimatedFareZAR * max 0 (min (95/100 : ℚ) feeRateEnv)) =
      ride.estimatedFareZAR ∧
    0 ≤ max 0 (min (95/100 : ℚ) feeRateEnv) ∧
    max 0 (min (95/100 : ℚ) feeRateEnv) ≤ 95/100 ∧
    walletBal st2 riderUid = walletBal st riderUid - ride.estimatedFareZAR ∧
    walletBal st2 driverId = walletBal st driverId +
      (ride.estimatedFareZAR -
        jsRound (ride.estimatedFareZAR * max 0 (min (95/100 : ℚ) feeRateEnv))) := by
  unfold payDriverOnComplete at hok
  rw [if_neg hid] at hok
  simp only [hride] at hok
  rw [if_neg hnotdone, if_neg (not_not_intro howner), if_neg (not_not_intro htrip)] at hok
  simp only [hdrv] at hok
  rw [if_neg (not_le.mpr hamt), if_neg (not_lt.mpr hbal)] at hok
  simp only [Except.ok.injEq] at hok
  subst hok
  refine ⟨sub_add_cancel _ _, le_max_left _ _,
    max_le (by norm_num) (min_le_left _ _), ?_, ?_⟩
  · simp only [walletBal]
    rw [lookupA_setAssoc_ne _ _ _ _ hdistinct, lookupA_setAssoc_self]
  · simp only [walletBal]
    rw [lookupA_setAssoc_self]

/-- Witness for C8: fare 50 at the default 20% rate (fee 10, payout 40). -/
theorem payDriver_fee_split_conserved_w :
    walletBal rideAfter "r" = walletBal rideStore "r" - 50 ∧
    walletBal rideAfter "d" = walletBal rideStore "d" +
      (50 - jsRound ((50 : ℚ) * max 0 (min (95/100 : ℚ) (2/10)))) ∧
    (50 - jsRound ((50 : ℚ) * max 0 (min (95/100 : ℚ) (2/10)))) +
      jsRound ((50 : ℚ) * max 0 (min (95/100 : ℚ) (2/10))) = 50 ∧
    jsRound ((50 : ℚ) * max 0 (min (95/100 : ℚ) (2/10))) = 10 :=
  have app := payDriver_fee_split_conserved rideStore "r" "ride1" (2/10) "ZAR" "d1" "c1"
    rideAfter { userId := "r", status := "on_trip", driverId := some "d",
                estimatedFareZAR := 50, paymentStatus := none } "d"
    (by decide) (by decide) (by decide) (by decide) (by decide) (by decide)
    (by decide) (by with_unfolding_all decide) (by with_unfolding_all decide)
    (by with_unfolding_all decide)
  ⟨app.2.2.2.1, app.2.2.2.2, app.1, by with_unfolding_all decide⟩

/-- C5 (amended): starting from a state in which every balance is
non-negative, a completed `transferFunds`, a completed
`depositToGroupWallet`, and either credit transaction with a non-negative
credited amount leave every balance non-negative.  (`adminAdjustBalance`
does not preserve the invariant — see the counterexample — and a ride
settlement or a webhook credit can also break it when the payout or the
parsed `amount_gross` is negative.) -/
theorem ledger_ops_preserve_nonneg :
    (∀ (st : FireStore) (fromUid : String) (p : P2PTransferPayload)
        (base dId cId : String) (st2 : FireStore),
      transferFunds st fromUid p base dId cId = .ok st2 →
      allBalancesNonneg st → allBalancesNonneg st2) ∧
    (∀ (st : FireStore) (uid : String) (p : DepositPayload)
        (base txId : String) (st2 : FireStore),
      depositToGroupWallet st uid p base txId = .ok st2 →
      allBalancesNonneg st → allBalancesNonneg st2) ∧
    (∀ (st : FireStore) (pid uid : String) (amt : ℚ) (base pm : String)
        (pf : Option String), 0 ≤ amt → allBalancesNonneg st →
      allBalancesNonneg (itnCreditTx st pid uid amt base pm pf)) ∧
    (∀ (st : FireStore) (uid pid : String) (amt : ℚ) (base : String)
        (details : List (String × String)), 0 ≤ amt → allBalancesNonneg st →
      allBalancesNonneg (verifyCreditTx st uid pid amt base details)) := by
  refine ⟨?_, ?_, ?_, ?_⟩
  · intro st fromUid p base dId cId st2 hok hnn
    unfold transferFunds at hok
    split at hok
    · exact absurd hok (by simp)
    · split at hok
      · exact absurd hok (by simp)
      · split at hok
        · exact absurd hok (by simp)
        · rename_i hamt
          simp only [] at hok
          split at hok
          · exact absurd hok (by simp)
          · rename_i hbal
            simp only [Except.ok.injEq] at hok
            subst hok
            refine ⟨?_, hnn.2⟩
            intro q hq
            rcases mem_setAssoc _ _ _ _ hq with h | h
            · rw [h]
              exact add_nonneg (walletBal_nonneg st _ hnn.1) (le_of_lt (not_le.mp hamt))
            · rcases mem_setAssoc _ _ _ _ h with h2 | h2
              · rw [h2]
                exact sub_nonneg.mpr (not_lt.mp hbal)
              · exact hnn.1 q h2
  · intro st uid p base txId st2 hok hnn
    unfold depositToGroupWallet at hok
    split at hok
    · exact absurd hok (by simp)
    · split at hok
      · exact absurd hok (by simp)
      · rename_i hamt
        split at hok
        · exact absurd hok (by simp)
        · simp only [] at hok
          split at hok
          · exact absurd hok (by simp)
          · rename_i w hw
            split at hok
            · exact absurd hok (by simp)
            · rename_i hbal
              simp only [Except.ok.injEq] at hok
              subst hok
              constructor
              · intro q hq
                rcases mem_setAssoc _ _ _ _ hq with h | h
                · rw [h]
                  exact sub_nonneg.mpr (not_lt.mp hbal)
                · exact hnn.1 q h
              · intro q hq
                rcases mem_setAssoc _ _ _ _ hq with h | h
                · rw [h]
                  exact add_nonneg (groupBalRead_nonneg st _ hnn.2)
                    (le_of_lt (not_le.mp hamt))
                · exact hnn.2 q h
  · intro st pid uid amt base pm pf hamt hnn
    refine ⟨?_, hnn.2⟩
    intro q hq
    rcases mem_setAssoc _ _ _ _ hq with h | h
    · rw [h]
      exact add_nonneg (walletBal_nonneg st _ hnn.1) hamt
    · exact hnn.1 q h
  · intro st uid pid amt base details hamt hnn
    refine ⟨?_, hnn.2⟩
    intro q hq
    rcases mem_setAssoc _ _ _ _ hq with h | h
    · rw [h]
      exact add_nonneg (walletBal_nonneg st _ hnn.1) hamt
    · exact hnn.1 q h

/-- Witness for the amended C5: each covered operation run on a concrete
non-negative state ends in a non-negative state. -/
theorem ledger_ops_preserve_nonneg_w :
    allBalancesNonneg tDemoAfter ∧
    allBalancesNonneg groupDemoAfter ∧
    allBalancesNonneg (itnCreditTx raceStore "p1" "u" 100 "ZAR" "cc" (some "pf9")) ∧
    allBalancesNonneg (verifyCreditTx verifyDemoStore "attacker" "p1" 100 "ZAR"
      gwComplete.details) :=
  have app := ledger_ops_preserve_nonneg
  ⟨app.1 tDemoStore "a" ⟨"b", 30, none⟩ "ZAR" "d1" "c1" tDemoAfter
      (by with_unfolding_all decide) (by decide),
   app.2.1 groupDemoStore "a" ⟨"g", 20, "wallet"⟩ "ZAR" "t1" groupDemoAfter
      (by with_unfolding_all decide) (by decide),
   app.2.2.1 raceStore "p1" "u" 100 "ZAR" "cc" (some "pf9") (by decide) (by decide),
   app.2.2.2 verifyDemoStore "attacker" "p1" 100 "ZAR" gwComplete.details
      (by decide) (by decide)⟩

/-- C2 counterexample: the pending payment `p1` is owned by `owner`, but a
verify call by a different authenticated user (`attacker`) on the same
payment id credits the **caller's** wallet (7 → 107) and leaves the owner's
wallet unchanged (5) — the credited account is not the one named by the
Pending Payment record's `uid`. -/
theorem verify_credits_caller_not_owner :
    (lookupA verifyDemoStore.pendingPayments "p1").map PendingPayment.uid =
      some "owner" ∧
    ("attacker" : String) ≠ "owner" ∧
    walletBal verifyDemoStore "attacker" = 7 ∧
    walletBal verifyDemoStore "owner" = 5 ∧
    verifyPayFastPayment verifyDemoStore "attacker" "p1" "m" "k" "" gwComplete =
      .ok (verifyDemoAfter,
        { status := "SUCCESS", credited := some 100, currency := some "ZAR",
          paymentMethod := some "cc" }) ∧
    walletBal verifyDemoAfter "attacker" = 107 ∧
    walletBal verifyDemoAfter "owner" = 5 := by
  with_unfolding_all decide

/-- C2 (amended): on each entry point's success path the four writes —
credited balance, TOP_UP log entry carrying the gateway payment-method
metadata, and the Pending Payment marked COMPLETED — are exactly the one
atomic credit transaction's state update, so they commit together or not
at all.  The credited wallet, however, is the webhook's `custom_str1` uid
on the ITN path and the authenticated **caller's** uid on the verify path;
neither path reads the uid out of the Pending Payment record. -/
theorem credit_paths_atomic_effects :
    (∀ (h : String → String) (mkEnv passEnv ccyEnv : String) (st : FireStore)
        (req : ITNRequest) (sig pid uid amts : String) (amt : ℚ)
        (pending : PendingPayment),
      req.method = "POST" → cleanPf mkEnv ≠ "" →
      dataTruthy req.data "signature" = some sig →
      sig = h (itnFinalString (cleanPf passEnv) req) →
      lookupA req.data "payment_status" = some "COMPLETE" →
      lookupA req.data "m_payment_id" = some pid → pid ≠ "" →
      lookupA req.data "custom_str1" = some uid → uid ≠ "" →
      lookupA req.data "amount_gross" = some amts →
      parseNum amts = some amt → amt ≠ 0 →
      lookupA st.pendingPayments pid = some pending →
      pending.status ≠ "COMPLETED" →
      payfastITN h mkEnv passEnv ccyEnv st req =
        ((200, "OK"),
          itnCreditTx st pid uid amt (getBaseCurrency ccyEnv)
            ((dataTruthy req.data "payment_method").getD "UNKNOWN")
            (dataTruthy req.data "pf_payment_id")) ∧
      walletBal (itnCreditTx st pid uid amt (getBaseCurrency ccyEnv)
          ((dataTruthy req.data "payment_method").getD "UNKNOWN")
          (dataTruthy req.data "pf_payment_id")) uid = walletBal st uid + amt ∧
      lookupA (itnCreditTx st pid uid amt (getBaseCurrency ccyEnv)
          ((dataTruthy req.data "payment_method").getD "UNKNOWN")
          (dataTruthy req.data "pf_payment_id")).txs (uid, pid) =
        some { txType := "TOP_UP", provider := some "PAYFAST",
               paymentMethod :=
                 some ((dataTruthy req.data "payment_method").getD "UNKNOWN"),
               amount := amt, currency := getBaseCurrency ccyEnv,
               status := "SUCCESS",
               pfPaymentId := dataTruthy req.data "pf_payment_id" } ∧
      (lookupA (itnCreditTx st pid uid amt (getBaseCurrency ccyEnv)
          ((dataTruthy req.data "payment_method").getD "UNKNOWN")
          (dataTruthy req.data "pf_payment_id")).pendingPayments pid).map
        PendingPayment.status = some "COMPLETED") ∧
    (∀ (st : FireStore) (uid pid mIdEnv mKeyEnv ccyEnv : String)
        (gw : PfQueryResult) (pending : PendingPayment) (pf : String),
      pid ≠ "" → cleanPf mIdEnv ≠ "" → cleanPf mKeyEnv ≠ "" →
      lookupA st.pendingPayments pid = some pending →
      pending.status ≠ "COMPLETED" → pending.pfPaymentId = some pf →
      gw.validateBody = "VALID" →
      lookupA gw.details "payment_status" = some "COMPLETE" →
      verifyPayFastPayment st uid pid mIdEnv mKeyEnv ccyEnv gw =
        .ok (verifyCreditTx st uid pid (verifyAmount gw) (getBaseCurrency ccyEnv)
            gw.details,
          { status := "SUCCESS", credited := some (verifyAmount gw),
            currency := some (getBaseCurrency ccyEnv),
            paymentMethod := lookupA gw.details "payment_method" }) ∧
      walletBal (verifyCreditTx st uid pid (verifyAmount gw)
          (getBaseCurrency ccyEnv) gw.details) uid =
        walletBal st uid + verifyAmount gw ∧
      lookupA (verifyCreditTx st uid pid (verifyAmount gw)
          (getBaseCurrency ccyEnv) gw.details).txs (uid, pid) =
        some { txType := "TOP_UP", provider := some "PAYFAST",
               paymentMethod :=
                 some ((dataTruthy gw.details "payment_method").getD "UNKNOWN"),
               amount := verifyAmount gw, currency := getBaseCurrency ccyEnv,
               status := "SUCCESS",
               pfPaymentId := dataTruthy gw.details "pf_payment_id" } ∧
      (lookupA (verifyCreditTx st uid pid (verifyAmount gw)
          (getBaseCurrency ccyEnv) gw.details).pendingPayments pid).map
        PendingPayment.status = some "COMPLETED") := by
  constructor
  · intro h mkEnv passEnv ccyEnv st req sig pid uid amts amt pending
      hm hk hsig hmatch hstat hpid hpidne hcs huidne hamts hparse hamtne hpend hpendstat
    have hgate : itnGate st pid = true := by
      unfold itnGate
      rw [hpend]
      simp [hpendstat]
    refine ⟨?_, ?_, ?_, ?_⟩
    · unfold payfastITN
      rw [if_neg (by simp [hm]), if_neg hk, hsig]
      simp only []
      rw [if_neg (fun hne2 => hne2 hmatch), if_neg (not_not_intro hstat)]
      rw [hpid, hcs, hamts]
      simp only [Option.getD_some]
      rw [hparse]
      rw [if_neg (by simp [hpidne, huidne, hamtne])]
      rw [if_pos hgate]
      simp only [Option.getD_some]
    · unfold itnCreditTx
      simp only [walletBal]
      rw [lookupA_setAssoc_self]
    · unfold itnCreditTx
      rw [lookupA_setAssoc_self]
    · unfold itnCreditTx
      simp only []
      rw [lookupA_updateAssoc_self, hpend]
      simp
  · intro st uid pid mIdEnv mKeyEnv ccyEnv gw pending pf
      hpidne hmid hmkey hpend hpendstat hpf hvalid hstat
    refine ⟨?_, ?_, ?_, ?_⟩
    · unfold verifyPayFastPayment
      rw [if_neg hpidne, if_neg (by simp [hmid, hmkey])]
      simp only [hpend]
      rw [if_neg hpendstat]
      simp only [hpf]
      rw [if_pos ⟨hvalid, hstat⟩, if_pos hpendstat]
    · unfold verifyCreditTx
      simp only [walletBal]
      rw [lookupA_setAssoc_self]
    · unfold verifyCreditTx
      rw [lookupA_setAssoc_self]
    · unfold verifyCreditTx
      simp only []
      rw [lookupA_updateAssoc_self, hpend]
      simp

/-- Witness for the amended C2: a concrete COMPLETE webhook delivery and a
concrete verify call, each reduced to its credit transaction. -/
theorem credit_paths_atomic_effects_w :
    payfastITN constSig "k" "" "" raceStore raceReq =
      ((200, "OK"),
        itnCreditTx raceStore "p1" "u" 100 (getBaseCurrency "")
          ((dataTruthy raceReq.data "payment_method").getD "UNKNOWN")
          (dataTruthy raceReq.data "pf_payment_id")) ∧
    walletBal (itnCreditTx raceStore "p1" "u" 100 (getBaseCurrency "")
        ((dataTruthy raceReq.data "payment_method").getD "UNKNOWN")
        (dataTruthy raceReq.data "pf_payment_id")) "u" = walletBal raceStore "u" + 100 ∧
    verifyPayFastPayment verifyDemoStore "attacker" "p1" "m" "k" "" gwComplete =
      .ok (verifyCreditTx verifyDemoStore "attacker" "p1" (verifyAmount gwComplete)
          (getBaseCurrency "") gwComplete.details,
        { status := "SUCCESS", credited := some (verifyAmount gwComplete),
          currency := some (getBaseCurrency ""),
          paymentMethod := lookupA gwComplete.details "payment_method" }) ∧
    walletBal (verifyCreditTx verifyDemoStore "attacker" "p1" (verifyAmount gwComplete)
        (getBaseCurrency "") gwComplete.details) "attacker" =
      walletBal verifyDemoStore "attacker" + verifyAmount gwComplete :=
  have appITN := credit_paths_atomic_effects.1 constSig "k" "" "" raceStore raceReq
    "SIG" "p1" "u" "100" 100
    { uid := "u", amount := 100, currency := "ZAR", status := "PENDING" }
    (by decide) (by decide) (by decide) (by decide) (by decide) (by decide)
    (by decide) (by decide) (by decide) (by decide) (by with_unfolding_all decide)
    (by with_unfolding_all decide) (by decide) (by decide)
  have appV := credit_paths_atomic_effects.2 verifyDemoStore "attacker" "p1" "m" "k" ""
    gwComplete
    { uid := "owner", amount := 100, currency := "ZAR", status := "PENDING",
      pfPaymentId := some "pf9" } "pf9"
    (by decide) (by decide) (by decide) (by decide) (by decide) (by decide)
    (by decide) (by decide)
  ⟨appITN.1, appITN.2.1, appV.1, appV.2.1⟩

end Dayly
